import Mathlib

/-!
Shallow embedding of the curator request-processing layer:
`src/bespokelabs/curator/llm/llm.py`,
`src/bespokelabs/curator/prompter/prompter.py`, and
`src/bespokelabs/curator/request_processor/batch/anthropic_batch_request_processor.py`.

Python machine behaviour is made explicit: fallible code returns `Except PyError`,
external collaborators (provider SDK results, instructor, litellm, the pickler)
are passed in as explicit arguments, and repository types that are only declared
outside `src/` are modelled from the spec (marked `Modelled from the spec:`).
-/

/-- Python exception values that the embedded code can raise. -/
inductive PyError where
  | keyError (k : String)
  | attributeError (a : String)
  | valueError (msg : String)
  | typeError (msg : String)
  | indexError
  | apiError (msg : String)
deriving DecidableEq, Repr

/-- Decimal digits of `n`, least significant first (helper for the model of Python
`str` on a nonnegative `int`). -/
def digitsRev (n : Nat) : List Nat :=
  if _h : n < 10 then [n]
  else (n % 10) :: digitsRev (n / 10)
decreasing_by exact Nat.div_lt_self (by omega) (by omega)

/-- Model of Python `str` on a nonnegative `int`: its decimal representation. -/
def decimalRepr (n : Nat) : String :=
  ⟨(digitsRev n).reverse.map Nat.digitChar⟩

/-- Model of Python `int` applied to a decimal string. -/
def decodeDecimal (s : String) : Nat :=
  s.data.foldl (fun acc c => acc * 10 + (c.toNat - 48)) 0

theorem digitsRev_lt_ten (n : Nat) : ∀ d ∈ digitsRev n, d < 10 := by
  induction n using Nat.strong_induction_on with
  | _ n ih =>
    rw [digitsRev]
    split
    · intro d hd
      simp only [List.mem_singleton] at hd
      omega
    · intro d hd
      rcases List.mem_cons.mp hd with h | h
      · subst h
        exact Nat.mod_lt _ (by omega)
      · exact ih (n / 10) (Nat.div_lt_self (by omega) (by omega)) d h

theorem foldr_digitsRev (n : Nat) :
    (digitsRev n).foldr (fun d acc => acc * 10 + d) 0 = n := by
  induction n using Nat.strong_induction_on with
  | _ n ih =>
    rw [digitsRev]
    split
    · simp
    · rw [List.foldr_cons, ih (n / 10) (Nat.div_lt_self (by omega) (by omega))]
      omega

theorem foldr_digitChar : ∀ l : List Nat, (∀ d ∈ l, d < 10) →
    l.foldr (fun d acc => acc * 10 + ((Nat.digitChar d).toNat - 48)) 0 =
      l.foldr (fun d acc => acc * 10 + d) 0 := by
  intro l
  induction l with
  | nil => intro _; rfl
  | cons a t ih =>
    intro hl
    simp only [List.foldr_cons]
    rw [ih (fun d hd => hl d (List.mem_cons_of_mem a hd))]
    have ha : a < 10 := hl a (List.mem_cons_self a t)
    have : (Nat.digitChar a).toNat - 48 = a := by
      interval_cases a <;> rfl
    rw [this]

/-- Python's `int` is a left inverse of Python's `str` on nonnegative ints. -/
theorem decode_decimalRepr (n : Nat) : decodeDecimal (decimalRepr n) = n := by
  show ((digitsRev n).reverse.map Nat.digitChar).foldl
      (fun acc c => acc * 10 + (c.toNat - 48)) 0 = n
  rw [List.foldl_map, List.foldl_reverse]
  rw [foldr_digitChar _ (digitsRev_lt_ten n), foldr_digitsRev]

/-! ## Anthropic batch processor: protocol objects

`types/generic_batch.py` and `types/generic_response.py` are not under `src/`;
the generic types below are modelled from spec sections 3 and 4.1. The SDK
types mirror the fields that the processor reads. -/

/-- Anthropic SDK `MessageBatchRequestCounts`: "processing", "canceled", "errored",
"expired", "succeeded". -/
structure MessageBatchRequestCounts where
  processing : Nat
  canceled : Nat
  errored : Nat
  expired : Nat
  succeeded : Nat
deriving DecidableEq, Repr

/-- Anthropic SDK `MessageBatch` (the fields `AnthropicBatchRequestProcessor` reads).
`processing_status` is documented by the SDK as one of "in_progress", "canceling",
"ended". -/
structure MessageBatch where
  id : String
  processing_status : String
  created_at : String
  ended_at : Option String
  request_counts : MessageBatchRequestCounts
deriving DecidableEq, Repr

/-- Modelled from the spec: `GenericBatchStatus` (`types/generic_batch.py` is not in
`src/`); spec section 3 gives status in CREATED, SUBMITTED, FINISHED, FAILED, CANCELLED. -/
inductive GenericBatchStatus where
  | created
  | submitted
  | finished
  | failed
  | cancelled
deriving DecidableEq, Repr

/-- Modelled from the spec: the string value carried by a `GenericBatchStatus` member,
used to model a Python comparison of a status member with a raw provider string (this
is generous to the code: for a plain `Enum`, `member == "ended"` is always `False`;
for a str-valued enum it compares these values). -/
def statusValue : GenericBatchStatus → String
  | .created => "created"
  | .submitted => "submitted"
  | .finished => "finished"
  | .failed => "failed"
  | .cancelled => "cancelled"

/-- Modelled from the spec: `GenericBatchRequestCounts` with the fields set by
`parse_api_specific_request_counts`. -/
structure GenericBatchRequestCounts where
  failed : Nat
  succeeded : Nat
  total : Nat
  raw_request_counts_object : MessageBatchRequestCounts
deriving DecidableEq, Repr

/-- Modelled from the spec: `GenericBatch` (`types/generic_batch.py` is not in `src/`),
with exactly the fields `parse_api_specific_batch_object` populates. It has no
`processing_status` attribute; only the SDK `MessageBatch` does. -/
structure GenericBatch where
  request_file : Option String
  id : String
  created_at : String
  finished_at : Option String
  status : GenericBatchStatus
  api_key_suffix : String
  request_counts : GenericBatchRequestCounts
  raw_status : String
  raw_batch : Option MessageBatch
deriving DecidableEq, Repr

/-- Python `api_key[-4:]`. -/
def apiKeyLast4 (s : String) : String :=
  ⟨(s.data.reverse.take 4).reverse⟩

/-- `AnthropicBatchRequestProcessor.parse_api_specific_request_counts`. -/
def parse_api_specific_request_counts (rc : MessageBatchRequestCounts) :
    GenericBatchRequestCounts :=
  let failed := rc.canceled + rc.errored + rc.expired
  let succeeded := rc.succeeded
  let processing := rc.processing
  { failed := failed
    succeeded := succeeded
    total := processing + succeeded + failed
    raw_request_counts_object := rc }

/-- Dynamic argument of `parse_api_specific_batch_object`: `submit_batch` and
`retrieve_batch` pass an SDK `MessageBatch`, but `cancel_batch` passes the
`GenericBatch` returned by `retrieve_batch` (which may also be Python `None`),
so the argument type is modelled dynamically. -/
inductive BatchObjectArg where
  | sdk (b : MessageBatch)
  | generic (g : GenericBatch)
  | pyNone
deriving DecidableEq, Repr

/-- `AnthropicBatchRequestProcessor.parse_api_specific_batch_object`. The first
attribute read is `batch.processing_status`; a `GenericBatch` or `None` argument
raises `AttributeError` there, since neither has that attribute. Note the code
tests the misspelling "cancelling" while the SDK (and the function's own docstring)
documents "canceling". -/
def parse_api_specific_batch_object (apiKey : String) (batch : BatchObjectArg)
    (request_file : Option String) : Except PyError GenericBatch :=
  match batch with
  | .generic _ => .error (.attributeError "processing_status")
  | .pyNone => .error (.attributeError "processing_status")
  | .sdk b =>
    let mk : GenericBatchStatus → Except PyError GenericBatch := fun status =>
      .ok { request_file := request_file
            id := b.id
            created_at := b.created_at
            finished_at := b.ended_at
            status := status
            api_key_suffix := apiKeyLast4 apiKey
            request_counts := parse_api_specific_request_counts b.request_counts
            raw_status := b.processing_status
            raw_batch := some b }
    if b.processing_status = "cancelling" ∨ b.processing_status = "in_progress" then
      mk .submitted
    else if b.processing_status = "ended" then
      mk .finished
    else
      .error (.valueError ("Unknown batch status: " ++ b.processing_status))

/-- Modelled from the spec: the Tracker's `submitted_batches` mapping from batch id to
its recorded `GenericBatch` (the tracker type itself is not under `src/`). -/
abbrev Tracker := List (String × GenericBatch)

/-- Python `tracker.submitted_batches[k]` lookup (first binding wins, as in a dict). -/
def trackerFind (t : Tracker) (k : String) : Option GenericBatch :=
  (t.find? (fun p => p.1 == k)).map Prod.snd

/-- `AnthropicBatchRequestProcessor.retrieve_batch`; `provider` is the result of the
SDK call `client.messages.batches.retrieve(batch.id)`, with `.error ()` standing for
`NotFoundError`. On `NotFoundError` the code logs a warning and returns `None`;
otherwise it looks up the request file in the tracker (keyed by the retrieved
batch's id, since `batch` is reassigned) and parses the SDK object. -/
def retrieve_batch (apiKey : String) (tr : Tracker) (provider : Except Unit MessageBatch)
    (_batch : GenericBatch) : Except PyError (Option GenericBatch) :=
  match provider with
  | .error () => .ok none
  | .ok mb =>
    match trackerFind tr mb.id with
    | none => .error (.keyError mb.id)
    | some entry =>
      match parse_api_specific_batch_object apiKey (.sdk mb) entry.request_file with
      | .error e => .error e
      | .ok g => .ok (some g)

/-- `AnthropicBatchRequestProcessor.cancel_batch`. `provider` is the retrieve result
consumed by the inner `retrieve_batch` call and `cancelRaises` says whether
`client.messages.batches.cancel` raises. Both the `"ended"` branch and the
try/except around the cancel call end by calling `parse_api_specific_batch_object`
on `batch_object`, the `GenericBatch` returned by `retrieve_batch`; inside the
`try`, an exception from either the cancel call or that parse is caught by
`except Exception`, whose handler performs the same parse call again. -/
def cancel_batch (apiKey : String) (tr : Tracker) (provider : Except Unit MessageBatch)
    (cancelRaises : Bool) (batch : GenericBatch) : Except PyError GenericBatch :=
  match trackerFind tr batch.id with
  | none => .error (.keyError batch.id)
  | some entry =>
    match retrieve_batch apiKey tr provider batch with
    | .error e => .error e
    | .ok none => .error (.attributeError "status")
    | .ok (some batch_object) =>
      if statusValue batch_object.status = "ended" then
        parse_api_specific_batch_object apiKey (.generic batch_object) entry.request_file
      else
        let tryResult : Except PyError GenericBatch :=
          if cancelRaises then .error (.apiError "cancel failed")
          else parse_api_specific_batch_object apiKey (.generic batch_object) entry.request_file
        match tryResult with
        | .ok g => .ok g
        | .error _ =>
          parse_api_specific_batch_object apiKey (.generic batch_object) entry.request_file

/-! ## Requests and responses -/

/-- `GenericRequest` (spec section 3; `types/generic_request.py` is not in `src/`):
the fields read by the Anthropic batch processor. Messages are (role, content) pairs. -/
structure GenericRequest where
  model : String
  messages : List (String × String)
  generation_params : List (String × String)
  original_row_idx : Nat
  response_format : Option String
deriving DecidableEq, Repr

/-- Output of `instructor.handle_response_model` (external collaborator): the kwargs
merged into the request params; contains `system` and `messages`. -/
structure InstructorKwargs where
  system : Option String
  messages : List (String × String)
deriving DecidableEq, Repr

/-- The `params` dict of one Anthropic batch request entry. -/
structure ApiRequestParams where
  model : String
  max_tokens : Nat
  system : Option String
  messages : List (String × String)
  generation_params : List (String × String)
deriving DecidableEq, Repr

/-- One entry of the request list sent to `client.messages.batches.create`. -/
structure ApiRequest where
  custom_id : String
  params : ApiRequestParams
deriving DecidableEq, Repr

/-- `AnthropicBatchRequestProcessor.create_api_specific_request_batch`; `kwargs` is
the instructor output and `configModelMaxTokens` models
`litellm.get_max_tokens(self.config.model)`. -/
def create_api_specific_request_batch (kwargs : InstructorKwargs)
    (configModelMaxTokens : Nat) (generic_request : GenericRequest) : ApiRequest :=
  { custom_id := decimalRepr generic_request.original_row_idx
    params := { model := generic_request.model
                max_tokens := configModelMaxTokens
                system := kwargs.system
                messages := kwargs.messages
                generation_params := generic_request.generation_params } }

/-- `TokenUsage` (`types/token_usage.py` is not in `src/`; fields as populated by
`parse_api_specific_response`). -/
structure TokenUsage where
  prompt_tokens : Nat
  completion_tokens : Nat
  total_tokens : Nat
deriving DecidableEq, Repr

/-- The optional `usage` dict of a raw Anthropic batch result message; both token
fields are read with `.get(key, 0)`. -/
structure RawUsage where
  input_tokens : Option Nat
  output_tokens : Option Nat
deriving DecidableEq, Repr

/-- The `message` dict of a succeeded raw Anthropic batch result; `content` holds the
text of each content block. -/
structure RawMessage where
  content : List String
  stop_reason : String
  stop_sequence : Option String
  usage : Option RawUsage
deriving DecidableEq, Repr

/-- The `result` dict of a raw Anthropic batch result; `error` and `message` model
keys that may be absent (a missing key read with `[...]` raises `KeyError`). -/
structure RawResultBody where
  type : String
  error : Option String
  message : Option RawMessage
deriving DecidableEq, Repr

/-- One raw Anthropic batch result record. -/
structure RawResult where
  custom_id : String
  result : RawResultBody
deriving DecidableEq, Repr

/-- Modelled from the spec: the outcome of `PromptFormatter.parse_response_message`
(`llm/prompt_formatter.py` is not in `src/`). Spec section 4.4: the pair holds the
parsed message on success, and on parse/validation failure an empty message together
with populated (non-empty) response errors, rather than raising. -/
inductive ParseOutcome where
  | parsed (msg : String)
  | failed (err : String) (more : List String)
deriving DecidableEq, Repr

/-- `GenericResponse` (spec section 3; `types/generic_response.py` is not in `src/`):
the fields populated by `parse_api_specific_response`. Costs are exact rationals. -/
structure GenericResponse where
  response_message : Option String
  response_errors : Option (List String)
  raw_response : RawResult
  generic_request : GenericRequest
  created_at : String
  finished_at : Option String
  token_usage : Option TokenUsage
  response_cost : Option ℚ
deriving DecidableEq, Repr

/-- `AnthropicBatchRequestProcessor.parse_api_specific_response`; `parser` models
`self.prompt_formatter.parse_response_message` and `completionCost` models
`litellm.completion_cost` as a function of the completion text (model and prompt are
held fixed in its closure). The cost is halved ("50% off for batch"). -/
def parse_api_specific_response (parser : String → ParseOutcome)
    (completionCost : String → ℚ) (raw_response : RawResult)
    (generic_request : GenericRequest) (batch : GenericBatch) :
    Except PyError GenericResponse :=
  let result_type := raw_response.result.type
  if result_type ≠ "succeeded" then
    match raw_response.result.error with
    | none => .error (.keyError "error")
    | some err =>
      .ok { response_message := none
            response_errors := some [err]
            raw_response := raw_response
            generic_request := generic_request
            created_at := batch.created_at
            finished_at := batch.finished_at
            token_usage := none
            response_cost := none }
  else
    match raw_response.result.message with
    | none => .error (.keyError "message")
    | some body =>
      match body.content.head? with
      | none => .error .indexError
      | some response_message_raw =>
        let inTok := (body.usage.map (fun u => u.input_tokens.getD 0)).getD 0
        let outTok := (body.usage.map (fun u => u.output_tokens.getD 0)).getD 0
        let token_usage : TokenUsage :=
          { prompt_tokens := inTok
            completion_tokens := outTok
            total_tokens := inTok + outTok }
        let pair : Option String × Option (List String) :=
          match parser response_message_raw with
          | .parsed m => (some m, none)
          | .failed e more => (none, some (e :: more))
        let cost := completionCost response_message_raw / 2
        .ok { response_message := pair.1
              response_errors := pair.2
              raw_response := raw_response
              generic_request := generic_request
              created_at := batch.created_at
              finished_at := batch.finished_at
              token_usage := some token_usage
              response_cost := some cost }

/-! ## Fingerprint engine

The xxh64 digest is modelled injectively by its preimage: `Digest.ofBytes` is the
digest of raw bytes (the `os.urandom(8)` path) and `Digest.ofContent` is the digest
of the UTF-8 fingerprint string, recorded componentwise in the order the components
are joined (with `_`) into that string. Equal preimages give equal xxh64 digests;
inequality is faithful up to hash collisions, which the model abstracts away. -/

/-- Components of the fingerprint string of `LLM._hash_fingerprint`, in join order.
`generation_params` is the sorted item list of the stripped generation-params dict;
it is `[]` exactly when the dict is empty and the `_...` suffix is absent. -/
structure ContentKey where
  dataset_hash : String
  prompt_func_hash : String
  model_name : String
  response_schema : String
  batch_mode : Bool
  backend : String
  generation_params : List (String × String)
deriving DecidableEq, Repr

/-- An xxh64 digest, modelled by its preimage. -/
inductive Digest where
  | ofBytes (seed : List Nat)
  | ofContent (key : ContentKey)
deriving DecidableEq, Repr

/-- `_remove_none_values` (llm.py): drop every None-valued entry of the dict. -/
def _remove_none_values (d : List (String × Option String)) : List (String × String) :=
  d.filterMap (fun p => p.2.map (fun v => (p.1, v)))

/-- Python `sorted(d.items())` on a dict with string keys and values: sort by key,
then value (keys are unique in a dict, so the key order decides). -/
def sortedItems (d : List (String × String)) : List (String × String) :=
  d.mergeSort (fun a b => decide (a.1 < b.1) || (a.1 == b.1 && decide (a.2 ≤ b.2)))

/-- `LLM._hash_fingerprint` composed with the stripping of None-valued generation
params done in `LLM.__init__` (`_remove_none_values(generation_params)` is what the
`PromptFormatter` stores and the fingerprint reads back). `seed` models the
`os.urandom(8)` bytes drawn when `disable_cache` is set. -/
def llm_hash_fingerprint (seed : List Nat) (disable_cache : Bool)
    (dataset_hash prompt_func_hash model_name response_schema : String)
    (batch_mode : Bool) (backend : String)
    (generation_params : List (String × Option String)) : Digest :=
  if disable_cache then
    Digest.ofBytes seed
  else
    Digest.ofContent
      { dataset_hash := dataset_hash
        prompt_func_hash := prompt_func_hash
        model_name := model_name
        response_schema := response_schema
        batch_mode := batch_mode
        backend := backend
        generation_params := sortedItems (_remove_none_values generation_params) }

/-- The fingerprint computed in `Prompter._completions`: six components only. The
Prompter's generation knobs (temperature, top_p, presence_penalty,
frequency_penalty) are passed to the request processor and never enter the
fingerprint string, which is why the corresponding arguments are unused here. -/
def prompter_fingerprint (dataset_hash prompt_func_hash model_name response_schema : String)
    (batch_mode : Bool) (backend : String)
    (_temperature _top_p _presence_penalty _frequency_penalty : Option String) : Digest :=
  Digest.ofContent
    { dataset_hash := dataset_hash
      prompt_func_hash := prompt_func_hash
      model_name := model_name
      response_schema := response_schema
      batch_mode := batch_mode
      backend := backend
      generation_params := [] }

/-! ## `LLM.__call__` control flow -/

/-- The concrete request-processor classes that `_RequestProcessorFactory.create` can
return; `LLM.__call__` checks `isinstance(self._request_processor,
OpenAIBatchRequestProcessor)` before cancelling. -/
inductive ProcessorKind where
  | openaiBatch
  | anthropicBatch
  | openaiOnline
  | litellmOnline
deriving DecidableEq, Repr

/-- Externally visible steps of `LLM.__call__` after the fingerprint is computed. -/
inductive CallEvent where
  | storeMetadata
  | cancelBatches
  | runProcessor
deriving DecidableEq, Repr

/-- Control flow of `LLM.__call__`: the metadata record is built and
`metadata_db.store_metadata(metadata_dict)` runs unconditionally, and only then is
`batch_cancel` checked against `isinstance(..., OpenAIBatchRequestProcessor)`.
Returns the event trace (in execution order) together with the raised error, if
any. -/
def llmCall (kind : ProcessorKind) (batch_cancel : Bool) :
    List CallEvent × Option PyError :=
  if batch_cancel then
    if kind ≠ ProcessorKind.openaiBatch then
      ([CallEvent.storeMetadata],
        some (PyError.valueError "batch_cancel can only be used with batch mode"))
    else
      ([CallEvent.storeMetadata, CallEvent.cancelBatches], none)
  else
    ([CallEvent.storeMetadata, CallEvent.runProcessor], none)

/-! ## `prompter._get_function_hash` -/

/-- A dynamic Python value, for arguments whose runtime type matters. -/
inductive PyVal where
  | int (n : Nat)
  | str (s : String)
  | bytes (b : List Nat)
deriving DecidableEq, Repr

/-- A CPython code object: the `co_*` fields that `prompter._get_function_hash`
reads. Constants are modelled by their reprs. -/
structure CodeObj where
  co_argcount : Nat
  co_posonlyargcount : Nat
  co_kwonlyargcount : Nat
  co_nlocals : Nat
  co_stacksize : Nat
  co_flags : Nat
  co_code : List Nat
  co_consts : List String
  co_names : List String
  co_varnames : List String
  co_filename : String
  co_name : String
  co_firstlineno : Nat
  co_linetable : List Nat
  co_freevars : List String
  co_cellvars : List String
deriving DecidableEq, Repr

/-- CPython `types.CodeType(...)` argument validation, in the Python 3.10 positional
layout the source call matches (16 positional arguments, with `co_linetable` in the
14th slot): `firstlineno` is declared `int`, so a `str` such as `"1"` raises
`TypeError`. On Python 3.11+ the same 16-argument call misaligns against the
18-parameter signature (qualname and exceptiontable were inserted) and also raises
`TypeError`, with the linetable bytes landing in the `int` slot; on either version
the construction fails with `TypeError`. -/
def codeTypeNew (argcount posonlyargcount kwonlyargcount nlocals stacksize flags : Nat)
    (code : List Nat) (consts names varnames : List String) (filename name : String)
    (firstlineno : PyVal) (linetable : List Nat) (freevars cellvars : List String) :
    Except PyError CodeObj :=
  match firstlineno with
  | .int n =>
    .ok { co_argcount := argcount
          co_posonlyargcount := posonlyargcount
          co_kwonlyargcount := kwonlyargcount
          co_nlocals := nlocals
          co_stacksize := stacksize
          co_flags := flags
          co_code := code
          co_consts := consts
          co_names := names
          co_varnames := varnames
          co_filename := filename
          co_name := name
          co_firstlineno := n
          co_linetable := linetable
          co_freevars := freevars
          co_cellvars := cellvars }
  | _ => .error (.typeError "an integer is required")

/-- Python `sorted` on a list of strings. -/
def sortStr (l : List String) : List String :=
  l.mergeSort (fun a b => decide (a ≤ b))

/-- A Python function object: the attributes `prompter._get_function_hash` reads. -/
structure PyFunc where
  code : CodeObj
  name : String
deriving DecidableEq, Repr

/-- `prompter._get_function_hash`: for `None` it returns the hash of the empty
string; otherwise it builds a standardized code object through `types.CodeType`,
passing the string `"1"` where the integer `firstlineno` is required (the source
comment "Line number must be string" notwithstanding). `serialize` stands for the
subsequent `types.FunctionType` + `PathIndependentPickler.dump` steps, which are
only reached if the code object is constructed. -/
def prompter_get_function_hash (serialize : CodeObj → List Nat)
    (func : Option PyFunc) : Except PyError Digest :=
  match func with
  | none => .ok (Digest.ofBytes [])
  | some f =>
    match codeTypeNew f.code.co_argcount f.code.co_posonlyargcount
        f.code.co_kwonlyargcount f.code.co_nlocals f.code.co_stacksize
        f.code.co_flags f.code.co_code f.code.co_consts
        (sortStr f.code.co_names) (sortStr f.code.co_varnames)
        "standardized" f.code.co_name (PyVal.str "1") f.code.co_linetable
        (sortStr f.code.co_freevars) (sortStr f.code.co_cellvars) with
    | .error e => .error e
    | .ok code => .ok (Digest.ofBytes (serialize code))

/-! ## Shared helper lemmas -/

theorem mem_remove_none (d : List (String × Option String)) (a b : String) :
    (a, b) ∈ _remove_none_values d ↔ (a, some b) ∈ d := by
  unfold _remove_none_values
  rw [List.mem_filterMap]
  constructor
  · rintro ⟨⟨x, y⟩, hmem, hf⟩
    cases y with
    | none => simp at hf
    | some v =>
      simp only [Option.map_some', Option.some.injEq, Prod.mk.injEq] at hf
      obtain ⟨h1, h2⟩ := hf
      subst h1
      subst h2
      exact hmem
  · intro h
    exact ⟨(a, some b), h, rfl⟩

theorem sortedItems_perm (l : List (String × String)) :
    List.Perm (sortedItems l) l :=
  List.mergeSort_perm l _

theorem length_sortedItems (l : List (String × String)) :
    (sortedItems l).length = l.length :=
  List.length_mergeSort l

theorem llm_hash_fingerprint_content (seed : List Nat)
    (dh ph mn sc : String) (bm : Bool) (be : String)
    (gp : List (String × Option String)) :
    llm_hash_fingerprint seed false dh ph mn sc bm be gp =
      Digest.ofContent
        { dataset_hash := dh
          prompt_func_hash := ph
          model_name := mn
          response_schema := sc
          batch_mode := bm
          backend := be
          generation_params := sortedItems (_remove_none_values gp) } := rfl

/-! ## Claim theorems -/

def c1Counts : MessageBatchRequestCounts :=
  { processing := 3, canceled := 0, errored := 0, expired := 0, succeeded := 0 }

def c1Tracked : GenericBatch :=
  { request_file := some "requests_0.jsonl"
    id := "msgbatch_1"
    created_at := "2024-11-20T10:00:00Z"
    finished_at := none
    status := .submitted
    api_key_suffix := "-key"
    request_counts := parse_api_specific_request_counts c1Counts
    raw_status := "in_progress"
    raw_batch := none }

def c1Provider : MessageBatch :=
  { id := "msgbatch_1"
    processing_status := "in_progress"
    created_at := "2024-11-20T10:00:00Z"
    ended_at := none
    request_counts := c1Counts }

/-- C1: the claim says `cancel_batch` on a non-terminal batch issues the provider
cancel call and returns a batch whose status is CANCELLED. On the code, for a
tracked, non-terminal batch (provider status "in_progress") with a succeeding
cancel call, `cancel_batch` instead raises `AttributeError`: it feeds the
`GenericBatch` returned by `retrieve_batch` to `parse_api_specific_batch_object`,
which reads the `processing_status` attribute that only the SDK `MessageBatch`
has; the terminal-state check compares the generic status enum against the raw
string "ended" and so can never take the warning branch either. No path of
`cancel_batch` ever produces a CANCELLED status. -/
theorem c1_cancel_batch_attribute_error :
    cancel_batch "sk-ant-api-key" [("msgbatch_1", c1Tracked)] (Except.ok c1Provider)
        false c1Tracked
      = Except.error (PyError.attributeError "processing_status") := by rfl

/-- C2: the claim says both fingerprint entry points hash a prompt function to the
identical string independent of defining-file path. In `prompter._get_function_hash`
the standardizing `types.CodeType(...)` call passes the string "1" where CPython
requires the integer `firstlineno` (Python 3.10 layout; on 3.11+ the same positional
call also fails), so the function raises `TypeError` for every non-None function
and never yields a hash at all, for any serializer. -/
theorem c2_prompter_function_hash_raises (serialize : CodeObj → List Nat) (f : PyFunc) :
    prompter_get_function_hash serialize (some f)
      = Except.error (PyError.typeError "an integer is required") := rfl

/-- C7: `retrieve_batch` returns None (without raising) when the provider reports
`NotFoundError`, and for a found batch whose processing status is one the code
recognizes it returns the parsed `GenericBatch`, keyed into the tracker by the
retrieved id. -/
theorem c7_retrieve_batch (apiKey : String) (tr : Tracker) (b : GenericBatch)
    (mb : MessageBatch) (entry : GenericBatch)
    (hlk : trackerFind tr mb.id = some entry)
    (hst : mb.processing_status = "in_progress" ∨ mb.processing_status = "cancelling"
      ∨ mb.processing_status = "ended") :
    retrieve_batch apiKey tr (Except.error ()) b = Except.ok none ∧
    ∃ g : GenericBatch, retrieve_batch apiKey tr (Except.ok mb) b = Except.ok (some g) ∧
      g.id = mb.id ∧ g.raw_status = mb.processing_status ∧
      g.request_file = entry.request_file := by
  refine ⟨rfl, ?_⟩
  unfold retrieve_batch
  dsimp only
  rw [hlk]
  unfold parse_api_specific_batch_object
  dsimp only
  rcases hst with h | h | h
  · rw [if_pos (Or.inr h)]
    dsimp only
    exact ⟨_, rfl, rfl, rfl, rfl⟩
  · rw [if_pos (Or.inl h)]
    dsimp only
    exact ⟨_, rfl, rfl, rfl, rfl⟩
  · rw [if_neg (by rw [h]; simp), if_pos h]
    dsimp only
    exact ⟨_, rfl, rfl, rfl, rfl⟩

def c7Tracked : GenericBatch :=
  { request_file := some "requests_7.jsonl"
    id := "msgbatch_7"
    created_at := "2024-11-21T08:00:00Z"
    finished_at := none
    status := .submitted
    api_key_suffix := "-key"
    request_counts := parse_api_specific_request_counts
      { processing := 1, canceled := 0, errored := 0, expired := 0, succeeded := 0 }
    raw_status := "in_progress"
    raw_batch := none }

def c7Provider : MessageBatch :=
  { id := "msgbatch_7"
    processing_status := "in_progress"
    created_at := "2024-11-21T08:00:00Z"
    ended_at := none
    request_counts := { processing := 1, canceled := 0, errored := 0, expired := 0, succeeded := 0 } }

/-- C7 witness: concrete instantiation of `c7_retrieve_batch`. -/
theorem c7_retrieve_batch_witness :
    retrieve_batch "sk-ant-api-key" [("msgbatch_7", c7Tracked)] (Except.error ()) c7Tracked
        = Except.ok none ∧
    ∃ g : GenericBatch,
      retrieve_batch "sk-ant-api-key" [("msgbatch_7", c7Tracked)] (Except.ok c7Provider) c7Tracked
          = Except.ok (some g) ∧
      g.id = c7Provider.id ∧ g.raw_status = c7Provider.processing_status ∧
      g.request_file = c7Tracked.request_file :=
  c7_retrieve_batch "sk-ant-api-key" [("msgbatch_7", c7Tracked)] c7Tracked c7Provider
    c7Tracked (by rfl) (Or.inl rfl)

/-- C8: each API-specific batch request carries `custom_id` equal to the decimal
string of the original row index of the generic request it was built from, and the
index is exactly recoverable from that string (so re-sorting downloaded results by
this index restores input order). -/
theorem c8_custom_id_row_idx (kwargs : InstructorKwargs) (maxTokens : Nat)
    (req : GenericRequest) :
    (create_api_specific_request_batch kwargs maxTokens req).custom_id
        = decimalRepr req.original_row_idx ∧
    decodeDecimal (create_api_specific_request_batch kwargs maxTokens req).custom_id
        = req.original_row_idx :=
  ⟨rfl, decode_decimalRepr _⟩

/-- C9: the claim says the three SDK-documented statuses all parse without raising,
with "canceling" mapped to SUBMITTED. The code maps "in_progress" to SUBMITTED and
"ended" to FINISHED, but it tests for the misspelling "cancelling", so the
documented status "canceling" falls through to the unknown-status branch and
raises `ValueError` (contradicting the docstring of the function itself, which
lists "canceling"). -/
theorem c9_parse_canceling_raises :
    (parse_api_specific_batch_object "sk-ant-api-key"
        (BatchObjectArg.sdk
          { id := "msgbatch_9", processing_status := "in_progress",
            created_at := "t0", ended_at := none,
            request_counts := { processing := 0, canceled := 0, errored := 0,
                                expired := 0, succeeded := 0 } })
        (some "requests_9.jsonl")).map GenericBatch.status
      = Except.ok GenericBatchStatus.submitted ∧
    (parse_api_specific_batch_object "sk-ant-api-key"
        (BatchObjectArg.sdk
          { id := "msgbatch_9", processing_status := "ended",
            created_at := "t0", ended_at := some "t1",
            request_counts := { processing := 0, canceled := 0, errored := 0,
                                expired := 0, succeeded := 0 } })
        (some "requests_9.jsonl")).map GenericBatch.status
      = Except.ok GenericBatchStatus.finished ∧
    parse_api_specific_batch_object "sk-ant-api-key"
        (BatchObjectArg.sdk
          { id := "msgbatch_9", processing_status := "canceling",
            created_at := "t0", ended_at := none,
            request_counts := { processing := 0, canceled := 0, errored := 0,
                                expired := 0, succeeded := 0 } })
        (some "requests_9.jsonl")
      = Except.error (PyError.valueError "Unknown batch status: canceling") := by
  refine ⟨rfl, rfl, rfl⟩

/-- C3 counterexample: the claim says changing a generation parameter changes the
fingerprint in both public entry points. In the Prompter entry point the
fingerprint string has only six components and the generation knobs never enter
it, so two runs differing only in temperature (0.5 versus 0.7) get the identical
fingerprint. -/
theorem c3_prompter_fingerprint_unchanged :
    prompter_fingerprint "hash0" "funchash0" "gpt-4o-mini" "text" false "openai"
        (some "0.5") none none none
      = prompter_fingerprint "hash0" "funchash0" "gpt-4o-mini" "text" false "openai"
        (some "0.7") none none none := rfl

/-- C3 amended: in the LLM entry point, with the dataset hash, prompt-function
hash, model, schema, mode and backend held fixed, adding one generation parameter
with a fresh key and a non-None value, or changing the (non-None) value of an
existing parameter, changes the fingerprint; the Prompter entry point's
fingerprint ignores generation parameters. -/
theorem c3_llm_fingerprint_sensitive (seed : List Nat) (dh ph mn sc : String)
    (bm : Bool) (be : String) (pre post : List (String × Option String))
    (k v1 v2 : String)
    (hk : k ∉ (pre ++ post).map Prod.fst) (hv : v1 ≠ v2) :
    llm_hash_fingerprint seed false dh ph mn sc bm be ((pre ++ post) ++ [(k, some v1)])
        ≠ llm_hash_fingerprint seed false dh ph mn sc bm be (pre ++ post) ∧
    llm_hash_fingerprint seed false dh ph mn sc bm be (pre ++ (k, some v1) :: post)
        ≠ llm_hash_fingerprint seed false dh ph mn sc bm be (pre ++ (k, some v2) :: post) := by
  constructor
  · intro h
    rw [llm_hash_fingerprint_content, llm_hash_fingerprint_content] at h
    simp only [Digest.ofContent.injEq, ContentKey.mk.injEq, eq_self_iff_true,
      true_and] at h
    have hlen := congrArg List.length h
    rw [length_sortedItems, length_sortedItems] at hlen
    have hone : (_remove_none_values ((pre ++ post) ++ [(k, some v1)])).length
        = (_remove_none_values (pre ++ post)).length + 1 := by
      simp [_remove_none_values, List.filterMap_append]
      omega
    omega
  · intro h
    rw [llm_hash_fingerprint_content, llm_hash_fingerprint_content] at h
    simp only [Digest.ofContent.injEq, ContentKey.mk.injEq, eq_self_iff_true,
      true_and] at h
    have hperm : List.Perm (_remove_none_values (pre ++ (k, some v1) :: post))
        (_remove_none_values (pre ++ (k, some v2) :: post)) := by
      have p1 := sortedItems_perm (_remove_none_values (pre ++ (k, some v1) :: post))
      have p2 := sortedItems_perm (_remove_none_values (pre ++ (k, some v2) :: post))
      rw [h] at p1
      exact p1.symm.trans p2
    have hmem : (k, v1) ∈ _remove_none_values (pre ++ (k, some v2) :: post) :=
      hperm.mem_iff.mp ((mem_remove_none _ _ _).mpr (by simp))
    rw [mem_remove_none] at hmem
    rcases List.mem_append.mp hmem with hpre | hrest
    · have hkpre : k ∈ pre.map Prod.fst := List.mem_map.mpr ⟨(k, some v1), hpre, rfl⟩
      exact hk (by rw [List.map_append]; exact List.mem_append.mpr (Or.inl hkpre))
    · rcases List.mem_cons.mp hrest with heq | hpost
      · simp only [Prod.mk.injEq, Option.some.injEq] at heq
        exact hv heq.2
      · have hkpost : k ∈ post.map Prod.fst := List.mem_map.mpr ⟨(k, some v1), hpost, rfl⟩
        exact hk (by rw [List.map_append]; exact List.mem_append.mpr (Or.inr hkpost))

/-- C3 witness: concrete instantiation of `c3_llm_fingerprint_sensitive`. -/
theorem c3_llm_fingerprint_sensitive_witness :
    llm_hash_fingerprint [] false "hash0" "funchash0" "claude-3-5-sonnet-20241022"
        "text" true "anthropic" ((([] : List (String × Option String)) ++ []) ++ [("temperature", some "0.5")])
      ≠ llm_hash_fingerprint [] false "hash0" "funchash0" "claude-3-5-sonnet-20241022"
        "text" true "anthropic" (([] : List (String × Option String)) ++ []) ∧
    llm_hash_fingerprint [] false "hash0" "funchash0" "claude-3-5-sonnet-20241022"
        "text" true "anthropic" (([] : List (String × Option String)) ++ ("temperature", some "0.5") :: [])
      ≠ llm_hash_fingerprint [] false "hash0" "funchash0" "claude-3-5-sonnet-20241022"
        "text" true "anthropic" (([] : List (String × Option String)) ++ ("temperature", some "0.7") :: []) :=
  c3_llm_fingerprint_sensitive [] "hash0" "funchash0" "claude-3-5-sonnet-20241022"
    "text" true "anthropic" [] [] "temperature" "0.5" "0.7" (by decide) (by decide)

/-- C4: with the disable-cache flag set, the fingerprint is the digest of the fresh
random seed alone: it is identical across arbitrary changes of every job content
component (dataset hash, prompt-function hash, model, schema, mode, backend,
generation params), and two calls drawing distinct 8-byte seeds get distinct
fingerprints, so the working directory of a content-identical call is not
reused. -/
theorem c4_disable_cache_fingerprint (seed seedB : List Nat) (_h8 : seed.length = 8)
    (dh ph mn sc : String) (bm : Bool) (be : String)
    (gp : List (String × Option String))
    (dh2 ph2 mn2 sc2 : String) (bm2 : Bool) (be2 : String)
    (gp2 : List (String × Option String))
    (hne : seed ≠ seedB) :
    llm_hash_fingerprint seed true dh ph mn sc bm be gp
        = llm_hash_fingerprint seed true dh2 ph2 mn2 sc2 bm2 be2 gp2 ∧
    llm_hash_fingerprint seed true dh ph mn sc bm be gp
        ≠ llm_hash_fingerprint seedB true dh ph mn sc bm be gp := by
  refine ⟨rfl, ?_⟩
  intro h
  exact hne (Digest.ofBytes.inj h)

/-- C4 witness: concrete instantiation of `c4_disable_cache_fingerprint`. -/
theorem c4_disable_cache_fingerprint_witness :
    llm_hash_fingerprint [0, 1, 2, 3, 4, 5, 6, 7] true "hash0" "funchash0"
        "claude-3-5-sonnet-20241022" "text" true "anthropic" []
        = llm_hash_fingerprint [0, 1, 2, 3, 4, 5, 6, 7] true "hash1" "funchash1"
          "gpt-4o-mini" "schema1" false "openai" [("temperature", some "0.7")] ∧
    llm_hash_fingerprint [0, 1, 2, 3, 4, 5, 6, 7] true "hash0" "funchash0"
        "claude-3-5-sonnet-20241022" "text" true "anthropic" []
        ≠ llm_hash_fingerprint [7, 6, 5, 4, 3, 2, 1, 0] true "hash0" "funchash0"
          "claude-3-5-sonnet-20241022" "text" true "anthropic" [] :=
  c4_disable_cache_fingerprint [0, 1, 2, 3, 4, 5, 6, 7] [7, 6, 5, 4, 3, 2, 1, 0]
    (by decide) "hash0" "funchash0" "claude-3-5-sonnet-20241022" "text" true
    "anthropic" [] "hash1" "funchash1" "gpt-4o-mini" "schema1" false "openai"
    [("temperature", some "0.7")] (by decide)

/-- C5 counterexample: the claim says the configuration error for a cancellation
request on a non-batch processor is surfaced before the metadata record is
persisted. On the code, with a LiteLLM online processor and batch_cancel
requested, the call raises the error but the metadata store event is already in
the trace: store_metadata runs unconditionally before the batch_cancel check. -/
theorem c5_metadata_stored_before_config_error :
    (llmCall ProcessorKind.litellmOnline true).2
        = some (PyError.valueError "batch_cancel can only be used with batch mode") ∧
    CallEvent.storeMetadata ∈ (llmCall ProcessorKind.litellmOnline true).1 := by
  decide

/-- C5 amended: requesting batch cancellation on any processor that is not the
OpenAI batch processor (including the Anthropic batch processor) raises the
configuration error before any processor work (no cancel or run event), but after
the metadata record has been persisted; with the OpenAI batch processor,
cancellation proceeds without the error. -/
theorem c5_config_error_after_metadata (kind : ProcessorKind)
    (h : kind ≠ ProcessorKind.openaiBatch) :
    llmCall kind true
        = ([CallEvent.storeMetadata],
            some (PyError.valueError "batch_cancel can only be used with batch mode")) ∧
    llmCall ProcessorKind.openaiBatch true
        = ([CallEvent.storeMetadata, CallEvent.cancelBatches], none) := by
  refine ⟨?_, rfl⟩
  simp [llmCall, h]

/-- C5 witness: concrete instantiation of `c5_config_error_after_metadata` at the
Anthropic batch processor. -/
theorem c5_config_error_after_metadata_witness :
    llmCall ProcessorKind.anthropicBatch true
        = ([CallEvent.storeMetadata],
            some (PyError.valueError "batch_cancel can only be used with batch mode")) ∧
    llmCall ProcessorKind.openaiBatch true
        = ([CallEvent.storeMetadata, CallEvent.cancelBatches], none) :=
  c5_config_error_after_metadata ProcessorKind.anthropicBatch (by decide)

/-- C6 amended: every GenericResponse produced by `parse_api_specific_response` has
exactly one of response_message and response_errors populated; a succeeded raw
result whose model output fails parsing yields an error-only response from the
parser errors rather than raising, and a raw result whose type is not "succeeded"
yields an error-only response when the raw result records an error field (when
that key is absent the code raises KeyError instead — see the counterexample). -/
theorem c6_response_message_xor_errors (parser : String → ParseOutcome)
    (completionCost : String → ℚ) (raw : RawResult) (req : GenericRequest)
    (batch : GenericBatch) :
    (∀ resp, parse_api_specific_response parser completionCost raw req batch
        = Except.ok resp →
      ((∃ m, resp.response_message = some m) ∧ resp.response_errors = none) ∨
      (resp.response_message = none ∧
        ∃ e more, resp.response_errors = some (e :: more))) ∧
    (∀ body m e more, raw.result.type = "succeeded" →
      raw.result.message = some body → body.content.head? = some m →
      parser m = ParseOutcome.failed e more →
      ∃ resp, parse_api_specific_response parser completionCost raw req batch
          = Except.ok resp ∧
        resp.response_message = none ∧ resp.response_errors = some (e :: more)) ∧
    (∀ err, raw.result.type ≠ "succeeded" → raw.result.error = some err →
      ∃ resp, parse_api_specific_response parser completionCost raw req batch
          = Except.ok resp ∧
        resp.response_message = none ∧ resp.response_errors = some [err]) := by
  refine ⟨?_, ?_, ?_⟩
  · intro resp h
    unfold parse_api_specific_response at h
    dsimp only at h
    by_cases hty : raw.result.type = "succeeded"
    · rw [if_neg (by simp [hty])] at h
      cases hmsg : raw.result.message with
      | none =>
        rw [hmsg] at h
        simp at h
      | some body =>
        rw [hmsg] at h
        dsimp only at h
        cases hhead : body.content.head? with
        | none =>
          rw [hhead] at h
          simp at h
        | some m0 =>
          rw [hhead] at h
          dsimp only at h
          cases hp : parser m0 with
          | parsed m =>
            rw [hp] at h
            dsimp only at h
            rw [Except.ok.injEq] at h
            subst h
            exact Or.inl ⟨⟨m, rfl⟩, rfl⟩
          | failed e more =>
            rw [hp] at h
            dsimp only at h
            rw [Except.ok.injEq] at h
            subst h
            exact Or.inr ⟨rfl, e, more, rfl⟩
    · rw [if_pos hty] at h
      cases herr : raw.result.error with
      | none =>
        rw [herr] at h
        simp at h
      | some err =>
        rw [herr] at h
        rw [Except.ok.injEq] at h
        subst h
        exact Or.inr ⟨rfl, err, [], rfl⟩
  · intro body m e more hty hmsg hhead hp
    unfold parse_api_specific_response
    dsimp only
    rw [if_neg (by simp [hty]), hmsg]
    dsimp only
    rw [hhead]
    dsimp only
    rw [hp]
    exact ⟨_, rfl, rfl, rfl⟩
  · intro err hty herr
    unfold parse_api_specific_response
    dsimp only
    rw [if_pos hty, herr]
    exact ⟨_, rfl, rfl, rfl⟩

def c6Body : RawMessage :=
  { content := ["not json"]
    stop_reason := "end_turn"
    stop_sequence := none
    usage := some { input_tokens := some 12, output_tokens := some 5 } }

def c6Raw : RawResult :=
  { custom_id := "0"
    result := { type := "succeeded", error := none, message := some c6Body } }

def c6Req : GenericRequest :=
  { model := "claude-3-5-sonnet-20241022"
    messages := [("user", "hi")]
    generation_params := []
    original_row_idx := 0
    response_format := some "schema" }

def c6Batch : GenericBatch :=
  { request_file := some "requests_0.jsonl"
    id := "msgbatch_6"
    created_at := "t0"
    finished_at := some "t1"
    status := .finished
    api_key_suffix := "-key"
    request_counts := parse_api_specific_request_counts
      { processing := 0, canceled := 0, errored := 0, expired := 0, succeeded := 1 }
    raw_status := "ended"
    raw_batch := none }

/-- C6 witness: concrete instantiation of `c6_response_message_xor_errors` on a
succeeded raw result whose model output fails schema parsing. -/
theorem c6_response_message_xor_errors_witness :
    ∃ resp, parse_api_specific_response (fun _ => ParseOutcome.failed "invalid JSON" [])
        (fun _ => 3) c6Raw c6Req c6Batch = Except.ok resp ∧
      resp.response_message = none ∧ resp.response_errors = some ["invalid JSON"] :=
  (c6_response_message_xor_errors (fun _ => ParseOutcome.failed "invalid JSON" [])
      (fun _ => 3) c6Raw c6Req c6Batch).2.1 c6Body "not json" "invalid JSON" []
    rfl rfl rfl rfl

/-- C10: a None-valued generation parameter is stripped before fingerprinting:
extending the generation-params dict with a fresh key mapped to None leaves the
LLM fingerprint unchanged, all other inputs fixed and caching enabled. -/
theorem c10_none_param_stripped (seed : List Nat) (dh ph mn sc : String) (bm : Bool)
    (be : String) (gp : List (String × Option String)) (k : String)
    (_hk : k ∉ gp.map Prod.fst) :
    llm_hash_fingerprint seed false dh ph mn sc bm be (gp ++ [(k, none)])
      = llm_hash_fingerprint seed false dh ph mn sc bm be gp := by
  rw [llm_hash_fingerprint_content, llm_hash_fingerprint_content]
  simp [_remove_none_values, List.filterMap_append]

/-- C10 witness: concrete instantiation of `c10_none_param_stripped`. -/
theorem c10_none_param_stripped_witness :
    llm_hash_fingerprint [] false "hash0" "funchash0" "claude-3-5-sonnet-20241022"
        "text" true "anthropic" ([("temperature", some "0.7")] ++ [("top_p", none)])
      = llm_hash_fingerprint [] false "hash0" "funchash0" "claude-3-5-sonnet-20241022"
        "text" true "anthropic" [("temperature", some "0.7")] :=
  c10_none_param_stripped [] "hash0" "funchash0" "claude-3-5-sonnet-20241022" "text"
    true "anthropic" [("temperature", some "0.7")] "top_p" (by decide)

def c7ProviderCanceling : MessageBatch :=
  { id := "msgbatch_7"
    processing_status := "canceling"
    created_at := "2024-11-21T08:00:00Z"
    ended_at := none
    request_counts := { processing := 1, canceled := 0, errored := 0, expired := 0, succeeded := 0 } }

/-- C7 counterexample: the claim says a found batch makes `retrieve_batch` return
the parsed GenericBatch. For a found, tracked batch that the provider reports in
the SDK-documented status "canceling", `retrieve_batch` instead raises
`ValueError` (the status test misspells it as "cancelling"), so the claim as
universally stated is false. -/
theorem c7_retrieve_canceling_raises :
    retrieve_batch "sk-ant-api-key" [("msgbatch_7", c7Tracked)]
        (Except.ok c7ProviderCanceling) c7Tracked
      = Except.error (PyError.valueError "Unknown batch status: canceling") := by rfl

/-- C6 counterexample: the claim says a result whose provider result type is not
"succeeded" yields a response with empty message and non-empty response_errors
rather than raising an exception. The code reads raw_response["result"]["error"]
unconditionally in the non-succeeded branch, and the SDK's canceled and expired
result objects carry no "error" key, so for an expired result the code raises
KeyError instead of returning any response. -/
theorem c6_missing_error_key_raises :
    parse_api_specific_response (fun _ => ParseOutcome.parsed "ok") (fun _ => 3)
        { custom_id := "0"
          result := { type := "expired", error := none, message := none } }
        c6Req c6Batch
      = Except.error (PyError.keyError "error") := by rfl
